import Mathlib

/-!
Verification of the DBF.js command-dispatch pipeline (src/dbf.js).

The development shallowly embeds the `__message` dispatch pipeline
(lines 478-600), the `__interaction` router (lines 612-646), the cooldown
tracking (lines 523-540 and 589-590) and the cooldown-duration string
formatting (line 536) as executable Lean functions, and proves the frozen
claims about them.

Modelling conventions:
* JS strings are modelled through their character lists; the JS string
  operations used by the source (startsWith, slice, trim, toLowerCase,
  split on space runs, one-shot String.prototype.replace) are re-implemented
  character by character below.
* Timestamps and durations are naturals measured in milliseconds
  (`Date.now()` values).  The one-decimal cooldown rendering works on the
  duration expressed in tenths of a second, which is exactly the
  information `toFixed(1)` keeps.
* The command map `client.commands` (populated by `__loadCommands` via
  `commands.set(command.name, command)`) is modelled as a list of command
  descriptors looked up by name; the cooldown collection is a flat
  association list keyed by (command name, user id).
* Falsiness of JS values is translated explicitly where the source relies
  on it (`!prefix`, `if (command.permissions)`, `message.webhookID`, the
  `owner` variable).
-/

set_option autoImplicit false

namespace DBF

/-! ## JS string primitives used by `__message` -/

/-- JS `content.startsWith(p)`. -/
def jsStartsWith (s p : String) : Bool :=
  p.data.isPrefixOf s.data

/-- JS `s.slice(n)` (drop the first `n` characters). -/
def jsSlice (s : String) (n : Nat) : String :=
  ⟨s.data.drop n⟩

/-- Whitespace trimmed by JS `String.prototype.trim` (ASCII portion). -/
def jsIsWS (c : Char) : Bool :=
  c == ' ' || c == '\t' || c == '\n' || c == '\r'

/-- JS `s.trim()`. -/
def jsTrim (s : String) : String :=
  ⟨((s.data.dropWhile jsIsWS).reverse.dropWhile jsIsWS).reverse⟩

/-- JS `s.toLowerCase()` (ASCII portion). -/
def jsToLower (s : String) : String :=
  ⟨s.data.map Char.toLower⟩

/-- Maximal runs of non-space characters of a character list. -/
def wordsAux (cur : List Char) : List Char → List String
  | [] => if cur.isEmpty then [] else [⟨cur.reverse⟩]
  | c :: rest =>
      if c == ' ' then
        if cur.isEmpty then wordsAux [] rest
        else ⟨cur.reverse⟩ :: wordsAux [] rest
      else wordsAux (c :: cur) rest

/-- JS `s.split(/ +/)`: the pieces between maximal runs of spaces, keeping
an empty piece at either end when the string starts or ends with a space,
and returning `[""]` on the empty string. -/
def jsSplitSpaces (s : String) : List String :=
  match s.data with
  | [] => [""]
  | l =>
      (if l.head? == some ' ' then [""] else []) ++
      wordsAux [] l ++
      (if l.getLast? == some ' ' then [""] else [])

/-- One-shot `String.prototype.replace` on character lists: only the first
occurrence of `pat` is replaced by `rep`, as in JS when the pattern is a
plain string. -/
def replaceOnceList (pat rep : List Char) : List Char → List Char
  | [] => if pat.isPrefixOf ([] : List Char) then rep else []
  | c :: rest =>
      if pat.isPrefixOf (c :: rest) then rep ++ (c :: rest).drop pat.length
      else c :: replaceOnceList pat rep rest

/-- JS `s.replace(pat, rep)` with a plain-string pattern (first occurrence
only). -/
def jsReplaceOnce (s pat rep : String) : String :=
  ⟨replaceOnceList pat.data rep.data s.data⟩

/-! ## Cooldown-duration formatting (src/dbf.js line 536)

`time_left.toFixed(1).replace("0.", ".").replace(".0", "")` — the duration
is carried as its count of tenths of a second, which is exactly the
information that survives `toFixed(1)`. -/

/-- The string `toFixed(1)` produces for a duration of `tenths / 10`
seconds. -/
def toFixed1 (tenths : Nat) : String :=
  toString (tenths / 10) ++ "." ++ toString (tenths % 10)

/-- The value substituted for the cooldown placeholder, exactly as
computed on line 536 of src/dbf.js: two one-shot string replaces applied
to the one-decimal rendering. -/
def cooldownPlaceholder (tenths : Nat) : String :=
  jsReplaceOnce (jsReplaceOnce (toFixed1 tenths) "0." ".") ".0" ""

/-- Transcription of the specification's trim rule, for comparison with
`cooldownPlaceholder`: format to one decimal place, then drop a trailing
".0", then collapse a leading "0." to ".". -/
def specCooldownString (tenths : Nat) : String :=
  let s := (toFixed1 tenths).data
  let s1 := if ['.', '0'].isSuffixOf s then s.take (s.length - 2) else s
  ⟨if ['0', '.'].isPrefixOf s1 then s1.drop 1 else s1⟩

/-! ## Data model -/

/-- Required permissions of a command: the source accepts either an array
of permission names or a single permission name
(`Array.isArray(command.permissions)` on lines 556 and 570). -/
inductive Perms where
  | arr (ps : List String)
  | str (p : String)
deriving DecidableEq, Repr

/-- A command descriptor as consumed by `__message`.  Absent JS fields are
modelled by the value the source coerces them to: `args` and `cooldown`
are read through `command.args || 0` and `command.cooldown || 1`, so `0`
stands for absent/unchecked arity here and `cooldown = 0` for an absent
cooldown; list fields default to `[]` exactly as lines 513-514 assign. -/
structure Command where
  name : String
  aliases : List String := []
  args : Nat := 0
  usage : Option String := none
  cooldown : Nat := 0
  guildOnly : Bool := false
  dmsOnly : Bool := false
  ownersOnly : Bool := false
  permissions : Option Perms := none
  botPermissions : Option Perms := none
  blockedUsers : List String := []
  unblockedUsers : List String := []
deriving DecidableEq, Repr

/-- The bot-wide configuration read by `__message`: `this.data.prefixes`
(`none` models a missing field, read through `|| ["!"]`), the owner list
and the global block list. -/
structure BotData where
  prefixes : Option (List String) := none
  owners : List String := []
  blockedUsers : List String := []
deriving DecidableEq, Repr

/-- The slice of an inbound message event that `__message` reads.
`authorPerms`/`botPerms` are the permission snapshots returned by
`message.channel.permissionsFor` (`none` models a `null` result), and
`handlerThrows` is the oracle for whether `command.execute(message, args)`
raises synchronously. -/
structure Msg where
  authorBot : Bool := false
  webhookID : Option String := none
  content : String
  authorId : String
  channelType : String := "text"
  authorPerms : Option (List String) := none
  botPerms : Option (List String) := none
  handlerThrows : Bool := false
deriving DecidableEq, Repr

/-- The cooldown collections: one entry per (command name, user id) pair
holding the timestamp stored by `timestamps.set(message.author.id, now)`. -/
abbrev Cooldowns := List (String × String × Nat)

/-- Lookup of `cooldowns.get(command.name)` followed by
`timestamps.get(user)`. -/
def lookupCd (st : Cooldowns) (cmd user : String) : Option Nat :=
  (st.find? fun e => e.1 == cmd && e.2.1 == user).map (·.2.2)

/-- `timestamps.set(user, ts)` (line 589): last write wins, at most one
record per (command, user) pair. -/
def setCd (st : Cooldowns) (cmd user : String) (ts : Nat) : Cooldowns :=
  (cmd, user, ts) :: st.filter fun e => !(e.1 == cmd && e.2.1 == user)

/-- `command.cooldown || 1` converted to milliseconds (line 527). -/
def cooldownMs (c : Command) : Nat :=
  (if c.cooldown = 0 then 1 else c.cooldown) * 1000

/-- The positive time left before the (command, user) cooldown expires, or
`none` when no record exists or it has expired — the quantity computed by
lines 529-532 (`expiration_time = ts + cooldown_amount`,
`now < expiration_time`, `time_left = expiration_time - now`). -/
def remaining (st : Cooldowns) (cmd user : String) (cdMs now : Nat) : Option Nat :=
  match lookupCd st cmd user with
  | none => none
  | some ts => if now < ts + cdMs then some (ts + cdMs - now) else none

/-! ## Guards of the authorization chain -/

/-- `client.commands.has(command_name)` (line 498): the command map is
keyed by `command.name` only (`__loadCommands`, line 692). -/
def hasName (reg : List Command) (name : String) : Bool :=
  reg.any fun c => c.name == name

/-- `client.commands.get(command_name) || client.commands.find(cmd =>
cmd.aliases && cmd.aliases.includes(command_name))` (line 508). -/
def resolveCommand (reg : List Command) (name : String) : Option Command :=
  match reg.find? (fun c => c.name == name) with
  | some c => some c
  | none => reg.find? fun c => c.aliases.contains name

/-- The block-list guard condition of lines 517-518. -/
def blockedRejects (bot : BotData) (c : Command) (uid : String) : Bool :=
  (bot.blockedUsers.contains uid || c.blockedUsers.contains uid) &&
    !(c.unblockedUsers.contains uid)

/-- `command.guildOnly && message.channel.type !== "text"` (line 542). -/
def guildOnlyRejects (c : Command) (channelType : String) : Bool :=
  c.guildOnly && !(channelType == "text")

/-- `command.dmsOnly && message.channel.type !== "dm"` (line 543). -/
def dmsOnlyRejects (c : Command) (channelType : String) : Bool :=
  c.dmsOnly && !(channelType == "dm")

/-- The `owner` variable of line 506: the author id matched against the
owner list; the match is then used for its JS truthiness, so a matched
empty-string id still counts as "not an owner". -/
def isOwner (owners : List String) (authorId : String) : Bool :=
  owners.contains authorId && authorId != ""

/-- `command.ownersOnly && !owner` (line 545). -/
def ownersRejects (c : Command) (ownerFlag : Bool) : Bool :=
  c.ownersOnly && !ownerFlag

/-- `perms.has(p)` of the platform client with its default administrator
override: a holder of ADMINISTRATOR passes every single-permission
query. -/
def hasPerm (snapshot : List String) (p : String) : Bool :=
  snapshot.contains "ADMINISTRATOR" || snapshot.contains p

/-- `perms.has(command.permissions)` for either shape of the field. -/
def hasPerms (snapshot : List String) : Perms → Bool
  | .arr ps => ps.all (hasPerm snapshot)
  | .str p => hasPerm snapshot p

/-- JS truthiness of `command.permissions` (line 552): absent is falsy, an
empty string is falsy, an array (even empty) is truthy. -/
def permsTruthy : Option Perms → Bool
  | none => false
  | some (.arr _) => true
  | some (.str p) => p != ""

/-- The inner rejection condition of lines 553-555: `!author_perms ||
!author_perms.has(command.permissions) ||
!author_perms.has("ADMINISTRATOR")`. -/
def permRejects (ps : Perms) (snapshot : Option (List String)) : Bool :=
  match snapshot with
  | none => true
  | some snap => !(hasPerms snap ps) || !(hasPerm snap "ADMINISTRATOR")

/-- The user-permission guard (lines 552-564). -/
def userPermRejects (c : Command) (snapshot : Option (List String)) : Bool :=
  match c.permissions with
  | none => false
  | some ps => permsTruthy (some ps) && permRejects ps snapshot

/-- The bot-permission guard (lines 566-578). -/
def botPermRejects (c : Command) (snapshot : Option (List String)) : Bool :=
  match c.botPermissions with
  | none => false
  | some ps => permsTruthy (some ps) && permRejects ps snapshot

/-- `num_args !== args.length && num_args !== 0` (line 580). -/
def arityRejects (numArgs : Nat) (args : List String) : Bool :=
  numArgs != args.length && numArgs != 0

/-! ## The authorization chain and the dispatch engine -/

/-- The outcome of one failed guard, each mapped to one response-catalog
key of `this.responces`. -/
inductive RejectionKind where
  | unknown
  | blocked
  | cooldown (timeLeftMs : Nat)
  | guildOnly
  | dmsOnly
  | ownersOnly
  | noPermission
  | noBotPermission
  | incorrectUsage
  | error
deriving DecidableEq, Repr

/-- The guard chain of `__message` (lines 498-587) applied to the
case-folded command token and its arguments, in the source's order:
unknown, blocked, cooldown, guild-only, dms-only, owners-only, user
permissions, bot permissions, arity.  The unreachable `.inl .error`
branch mirrors the `TypeError` a failed double lookup would raise into
the surrounding `catch`. -/
def authorize (bot : BotData) (reg : List Command) (st : Cooldowns) (msg : Msg)
    (now : Nat) (name : String) (args : List String) :
    Sum RejectionKind (Command × List String) :=
  if !(hasName reg name) then .inl .unknown
  else
    match resolveCommand reg name with
    | none => .inl .error
    | some c =>
      if blockedRejects bot c msg.authorId then .inl .blocked
      else
        match remaining st c.name msg.authorId (cooldownMs c) now with
        | some left => .inl (.cooldown left)
        | none =>
          if guildOnlyRejects c msg.channelType then .inl .guildOnly
          else if dmsOnlyRejects c msg.channelType then .inl .dmsOnly
          else if ownersRejects c (isOwner bot.owners msg.authorId) then .inl .ownersOnly
          else if userPermRejects c msg.authorPerms then .inl .noPermission
          else if botPermRejects c msg.botPerms then .inl .noBotPermission
          else if arityRejects c.args args then .inl .incorrectUsage
          else .inr (c, args)

/-- An observable action of the dispatch engine: one rejection response
sent to the channel, or one invocation of the matched handler. -/
inductive Effect where
  | respond (k : RejectionKind)
  | runHandler (name : String)
deriving DecidableEq, Repr

/-- Number of responses in an effect trace. -/
def respCount (l : List Effect) : Nat :=
  (l.filter fun e => match e with | .respond _ => true | _ => false).length

/-- Number of handler invocations in an effect trace. -/
def handlerCount (l : List Effect) : Nat :=
  (l.filter fun e => match e with | .runHandler _ => true | _ => false).length

/-- The tail of `__message` after parsing: run the guard chain; a rejection
sends exactly one response and keeps the cooldown state; full
authorization records the cooldown (line 589) and runs the handler once,
and a synchronous handler exception is caught and answered with one
`command_error` response (lines 593-599). -/
def dispatchParsed (bot : BotData) (reg : List Command) (st : Cooldowns) (msg : Msg)
    (now : Nat) (name : String) (args : List String) : List Effect × Cooldowns :=
  match authorize bot reg st msg now name args with
  | .inl k => ([.respond k], st)
  | .inr (c, _as) =>
      (.runHandler c.name :: (if msg.handlerThrows then [.respond .error] else []),
       setCd st c.name msg.authorId now)

/-- The prefix-selection loop of line 489: `for (const thisPrefix of
prefixes) if (content.startsWith(thisPrefix)) prefix = thisPrefix;` — the
variable keeps the value of the *last* matching prefix. -/
def selectedPre (prefixes : List String) (content : String) : Option String :=
  prefixes.foldl (fun acc p => if jsStartsWith content p then some p else acc) none

/-- `this.data.prefixes || ["!"]` (line 489). -/
def effPrefixes (bot : BotData) : List String :=
  bot.prefixes.getD ["!"]

/-- JS truthiness of `message.webhookID` (line 486). -/
def webhookTruthy : Option String → Bool
  | none => false
  | some s => s != ""

/-- The whole `__message` pipeline (lines 478-600): drop bot/webhook
events, select a prefix (JS falsiness turns a matched empty prefix into a
miss), strip it, trim, split on space runs, case-fold the first token,
drop empty tokens, then run the guard chain. -/
def dispatch (bot : BotData) (reg : List Command) (st : Cooldowns) (msg : Msg)
    (now : Nat) : List Effect × Cooldowns :=
  if msg.authorBot then ([], st)
  else if webhookTruthy msg.webhookID then ([], st)
  else
    match selectedPre (effPrefixes bot) msg.content with
    | none => ([], st)
    | some p =>
      if p == "" then ([], st)
      else
        let parts := jsSplitSpaces (jsTrim (jsSlice msg.content p.data.length))
        let name := jsToLower (parts.headD "")
        let args := parts.tail
        if name == "" then ([], st)
        else dispatchParsed bot reg st msg now name args

/-! ## The interaction router (`__interaction`, lines 612-646) -/

/-- A structured interaction event, by discriminant. -/
inductive Interaction where
  | command (name : String)
  | button (id : String)
  | selectMenu (id : String)
deriving DecidableEq, Repr

/-- The three disjoint handler tables (`client.slash`, `client.buttons`,
`client.selects`); each handler is represented by the oracle of whether
its `execute` raises. -/
structure HandlerTables where
  slash : List (String × Bool) := []
  buttons : List (String × Bool) := []
  selects : List (String × Bool) := []
deriving DecidableEq, Repr

/-- `table.get(key)` on a handler table. -/
def lookupTable (t : List (String × Bool)) (k : String) : Option Bool :=
  (t.find? fun e => e.1 == k).map (·.2)

/-- An observable action of the interaction router.  `refError` is the
strict-mode `ReferenceError` raised by the assignment to the undeclared
`msg` on line 625 (the module is `"use strict"`, line 6), which escapes
the catch block. -/
inductive IEffect where
  | runHandler (key : String)
  | logError
  | reply (ephemeral : Bool)
  | refError
deriving DecidableEq, Repr

/-- Whether an interaction effect is a user-visible reply. -/
def isReply : IEffect → Bool
  | .reply _ => true
  | _ => false

/-- The `__interaction` router: a missing handler is silently ignored for
all three kinds; an exception from a command-kind handler is logged
(line 623), after which the catch block attempts to render the error
reply but its first statement — `msg = responces.command_error[...]`,
line 625, with `msg` never declared — raises a `ReferenceError` under
strict mode, so `interaction.reply` on line 633 is never reached and no
reply is delivered; an exception from a button or select handler is
logged only (lines 635-645). -/
def interact (tables : HandlerTables) : Interaction → List IEffect
  | .command name =>
      match lookupTable tables.slash name with
      | none => []
      | some throws =>
          .runHandler name :: (if throws then [.logError, .refError] else [])
  | .button id =>
      match lookupTable tables.buttons id with
      | none => []
      | some throws => .runHandler id :: (if throws then [.logError] else [])
  | .selectMenu id =>
      match lookupTable tables.selects id with
      | none => []
      | some throws => .runHandler id :: (if throws then [.logError] else [])

/-! ## Concrete fixtures used by the witnesses and counterexamples -/

/-- Bot configuration with the stock `!` prefix and one owner. -/
def bot0 : BotData := { prefixes := some ["!"], owners := ["owner1"] }

/-- A plain command with alias `p` and a two-second cooldown. -/
def pingCmd : Command := { name := "ping", aliases := ["p"], cooldown := 2 }

/-- A command requiring the KICK_MEMBERS user permission. -/
def kickCmd : Command := { name := "kick", permissions := some (.arr ["KICK_MEMBERS"]) }

/-- An owners-only command that also declares a required user permission. -/
def adminCmd : Command :=
  { name := "admin", ownersOnly := true, permissions := some (.arr ["MANAGE_GUILD"]) }

/-- A command with declared arity two. -/
def twoCmd : Command := { name := "two", args := 2 }

/-- A baseline non-bot message from user `u1` in a guild text channel with
administrator snapshots. -/
def msg0 : Msg :=
  { content := "!ping", authorId := "u1",
    authorPerms := some ["ADMINISTRATOR"], botPerms := some ["ADMINISTRATOR"] }

example : dispatch bot0 [pingCmd] [] msg0 0 = ([.runHandler "ping"], [("ping", "u1", 0)]) := by
  decide

example : dispatch bot0 [pingCmd] [] { msg0 with handlerThrows := true } 0 =
    ([.runHandler "ping", .respond .error], [("ping", "u1", 0)]) := by decide

example : dispatch bot0 [pingCmd] [] { msg0 with content := "!p" } 0 =
    ([.respond .unknown], []) := by decide

example : dispatch bot0 [kickCmd] []
    { msg0 with content := "!kick", authorPerms := some ["KICK_MEMBERS"] } 0 =
    ([.respond .noPermission], []) := by decide

example : cooldownPlaceholder 103 = "1.3" := by decide
example : specCooldownString 103 = "10.3" := by decide
example : cooldownPlaceholder 10 = "1" := by decide
example : cooldownPlaceholder 3 = ".3" := by decide
example : selectedPre ["!", "!?"] "!?foo" = some "!?" := by decide

/-- Interaction handler tables with one throwing handler of each kind. -/
def tables0 : HandlerTables :=
  { slash := [("a", true)], buttons := [("b", true)], selects := [("c", true)] }

/-! ## Helper lemmas -/

/-- The prefix loop keeps the last matching prefix: folding from an
arbitrary accumulator equals the first match of the reversed list,
falling back to the accumulator. -/
theorem foldl_select_eq_revFind (content : String) (ps : List String) (acc : Option String) :
    ps.foldl (fun a p => if jsStartsWith content p then some p else a) acc =
      ((ps.reverse.find? fun p => jsStartsWith content p).or acc) := by
  induction ps generalizing acc with
  | nil => simp
  | cons p rest ih =>
      simp only [List.foldl_cons, List.reverse_cons, List.find?_append, ih]
      cases h : rest.reverse.find? (fun q => jsStartsWith content q) with
      | some q => simp [h]
      | none =>
          simp only [h, Option.or]
          cases hp : jsStartsWith content p <;> simp [List.find?, hp]

/-- Looking up the pair just written by `setCd`. -/
theorem lookupCd_setCd_self (st : Cooldowns) (cmd user : String) (ts : Nat) :
    lookupCd (setCd st cmd user ts) cmd user = some ts := by
  simp [lookupCd, setCd, List.find?]

/-- `remaining` after `setCd` on the same pair. -/
theorem remaining_setCd_self (st : Cooldowns) (cmd user : String) (ts cdMs now : Nat) :
    remaining (setCd st cmd user ts) cmd user cdMs now =
      if now < ts + cdMs then some (ts + cdMs - now) else none := by
  simp [remaining, lookupCd_setCd_self]

/-! ## Claims -/

/-- C1 (code bug): the source rejects with `command_no_permission` even
when the invoking user's snapshot contains every required permission,
because line 555 also demands the ADMINISTRATOR bit
(`... || !author_perms.has("ADMINISTRATOR")`).  The first conjunct shows
the snapshot satisfies the declared requirement of `kickCmd`; the second
evaluates the pipeline at that input and obtains the MissingUserPermission
rejection the claim rules out. -/
theorem c1_full_permissions_still_rejected :
    hasPerms ["KICK_MEMBERS"] (Perms.arr ["KICK_MEMBERS"]) = true
    ∧ dispatch bot0 [kickCmd] []
        { msg0 with content := "!kick", authorPerms := some ["KICK_MEMBERS"] } 0 =
        ([.respond .noPermission], []) := by
  decide

/-- C2 (code bug): a message whose command token is a registered alias is
answered with the Unknown rejection.  The second conjunct shows the
resolver of line 508 would find the descriptor through its alias, but the
name-only membership test of line 498 runs first and short-circuits to
`command_unknown`, so the alias path is unreachable. -/
theorem c2_alias_token_rejected_unknown :
    pingCmd.aliases.contains "p" = true
    ∧ resolveCommand [pingCmd] "p" = some pingCmd
    ∧ dispatch bot0 [pingCmd] [] { msg0 with content := "!p" } 0 =
        ([.respond .unknown], []) := by
  decide

/-- C3 counterexample: with prefixes `["!", "!?"]` and text `"!?foo"`, the
first matching prefix in declaration order is `"!"`, but the loop selects
`"!?"` — the claim's "first such prefix wins" is false on the code. -/
theorem c3_first_prefix_counterexample :
    (["!", "!?"].find? fun p => jsStartsWith "!?foo" p) = some "!"
    ∧ selectedPre ["!", "!?"] "!?foo" = some "!?"
    ∧ ("!" : String) ≠ "!?" := by
  decide

/-- C3 (amended): the *last* configured prefix that literally starts the
text is the one selected (the first match of the reversed declaration
order); when no prefix matches — or the selected prefix is the empty
string, which JS falsiness treats as no match — the event is silently
ignored with no effect. -/
theorem c3_last_prefix_selected (prefixes : List String) (content : String)
    (bot : BotData) (reg : List Command) (st : Cooldowns) (msg : Msg) (now : Nat) :
    selectedPre prefixes content = (prefixes.reverse.find? fun p => jsStartsWith content p)
    ∧ (msg.authorBot = false → webhookTruthy msg.webhookID = false →
        selectedPre (effPrefixes bot) msg.content = none →
        dispatch bot reg st msg now = ([], st))
    ∧ (msg.authorBot = false → webhookTruthy msg.webhookID = false →
        selectedPre (effPrefixes bot) msg.content = some "" →
        dispatch bot reg st msg now = ([], st)) := by
  refine ⟨?_, ?_, ?_⟩
  · simpa using foldl_select_eq_revFind content prefixes none
  · intro h1 h2 h3
    simp [dispatch, h1, h2, h3]
  · intro h1 h2 h3
    simp [dispatch, h1, h2, h3]

/-- Witness for the amended C3 at concrete inputs. -/
theorem c3_last_prefix_selected_witness :
    selectedPre ["!", "!?"] "!?foo" =
      ((["!", "!?"].reverse).find? fun p => jsStartsWith "!?foo" p)
    ∧ dispatch bot0 [pingCmd] [] { msg0 with content := "hello" } 0 = ([], []) :=
  ⟨(c3_last_prefix_selected ["!", "!?"] "!?foo" bot0 [] [] msg0 0).1,
   (c3_last_prefix_selected [] "" bot0 [pingCmd] [] { msg0 with content := "hello" } 0).2.1
     rfl rfl (by decide)⟩

/-- C4 counterexample: at a remaining duration of 10.3 seconds the source
renders `"1.3"` — the first-occurrence `replace("0.", ".")` of line 536
eats the interior `0.` — while the claimed trailing/leading trim rule
yields `"10.3"`. -/
theorem c4_trim_rule_counterexample :
    cooldownPlaceholder 103 = "1.3"
    ∧ specCooldownString 103 = "10.3"
    ∧ cooldownPlaceholder 103 ≠ specCooldownString 103 := by
  decide

/-- C4 (amended): the `{{cooldown}}` value is produced by two
first-occurrence string replaces (`"0."` to `"."`, then `".0"` to `""`)
applied to the one-decimal rendering; for positive durations below ten
seconds this coincides with the claimed trailing/leading trim rule, and
for durations of ten seconds or more it can alter interior digits. -/
theorem c4_trim_rule_below_ten :
    ∀ t : Nat, t < 100 → 1 ≤ t → cooldownPlaceholder t = specCooldownString t := by
  decide

/-- Witness for the amended C4 at a concrete duration (1.3 seconds). -/
theorem c4_trim_rule_below_ten_witness :
    cooldownPlaceholder 13 = specCooldownString 13 :=
  c4_trim_rule_below_ten 13 (by decide) (by decide)

/-- C5 counterexample: a fully authorized invocation whose handler throws
produces *two* terminal actions — the handler runs once and one
`command_error` rejection response is also emitted (lines 592-599) — so
the "exactly one of handler-run / one rejection / silent ignore"
disjunction fails at this input. -/
theorem c5_exactly_one_counterexample :
    (dispatch bot0 [pingCmd] [] { msg0 with handlerThrows := true } 0).1 =
      [.runHandler "ping", .respond .error]
    ∧ ¬ ((handlerCount [Effect.runHandler "ping", Effect.respond .error] = 1
            ∧ respCount [Effect.runHandler "ping", Effect.respond .error] = 0)
          ∨ (handlerCount [Effect.runHandler "ping", Effect.respond .error] = 0
            ∧ respCount [Effect.runHandler "ping", Effect.respond .error] = 1)
          ∨ (handlerCount [Effect.runHandler "ping", Effect.respond .error] = 0
            ∧ respCount [Effect.runHandler "ping", Effect.respond .error] = 0)) := by
  decide

/-- C5 (amended): per inbound event the pipeline produces exactly one of —
nothing (silent ignore), exactly one rejection response, a single handler
run, or, when the handler throws, a single handler run followed by exactly
one `command_error` response; the cooldown state changes only in the
handler-run cases. -/
theorem c5_terminal_actions (bot : BotData) (reg : List Command) (st : Cooldowns)
    (msg : Msg) (now : Nat) :
    dispatch bot reg st msg now = ([], st)
    ∨ (∃ k, dispatch bot reg st msg now = ([.respond k], st))
    ∨ (∃ c : Command, msg.handlerThrows = false ∧
        dispatch bot reg st msg now = ([.runHandler c.name], setCd st c.name msg.authorId now))
    ∨ (∃ c : Command, msg.handlerThrows = true ∧
        dispatch bot reg st msg now =
          ([.runHandler c.name, .respond .error], setCd st c.name msg.authorId now)) := by
  simp only [dispatch, dispatchParsed]
  split
  · exact Or.inl rfl
  split
  · exact Or.inl rfl
  split
  · exact Or.inl rfl
  split
  · exact Or.inl rfl
  split
  · exact Or.inl rfl
  split
  · next k _ => exact Or.inr (Or.inl ⟨k, rfl⟩)
  · next c as _ =>
      cases ht : msg.handlerThrows with
      | false => exact Or.inr (Or.inr (Or.inl ⟨c, rfl, by simp [ht]⟩))
      | true => exact Or.inr (Or.inr (Or.inr ⟨c, rfl, by simp [ht]⟩))

/-- C6 (confirmed): a fully authorized dispatch at time `now` writes the
cooldown record for (command, user) at `now`; the remaining time is
positive (`cdMs - e`) at every instant `now + e` with `e < cdMs` and
absent at every instant strictly past `now + cdMs`; every rejected
invocation leaves the cooldown state unchanged. -/
theorem c6_cooldown_lifecycle (bot : BotData) (reg : List Command) (st : Cooldowns)
    (msg : Msg) (now : Nat) (name : String) (args : List String) :
    (∀ c as, authorize bot reg st msg now name args = .inr (c, as) →
      lookupCd (dispatchParsed bot reg st msg now name args).2 c.name msg.authorId = some now
      ∧ (∀ e, e < cooldownMs c →
          remaining (dispatchParsed bot reg st msg now name args).2 c.name msg.authorId
            (cooldownMs c) (now + e) = some (cooldownMs c - e))
      ∧ (∀ e, 0 < e →
          remaining (dispatchParsed bot reg st msg now name args).2 c.name msg.authorId
            (cooldownMs c) (now + cooldownMs c + e) = none))
    ∧ (∀ k, authorize bot reg st msg now name args = .inl k →
        dispatchParsed bot reg st msg now name args = ([.respond k], st)) := by
  constructor
  · intro c as h
    have hst : (dispatchParsed bot reg st msg now name args).2 =
        setCd st c.name msg.authorId now := by
      simp [dispatchParsed, h]
    refine ⟨?_, ?_, ?_⟩
    · rw [hst, lookupCd_setCd_self]
    · intro e he
      rw [hst, remaining_setCd_self, if_pos (by omega)]
      congr 1
      omega
    · intro e he
      rw [hst, remaining_setCd_self, if_neg (by omega)]
  · intro k h
    simp [dispatchParsed, h]

/-- Witness for C6: dispatching `ping` (two-second cooldown) by `u1` at
time 0 records the cooldown; 500 ms later 1500 ms remain, one millisecond
after expiry nothing remains; an unknown token leaves the state empty. -/
theorem c6_cooldown_lifecycle_witness :
    lookupCd (dispatchParsed bot0 [pingCmd] [] msg0 0 "ping" []).2 pingCmd.name
      msg0.authorId = some 0
    ∧ remaining (dispatchParsed bot0 [pingCmd] [] msg0 0 "ping" []).2 pingCmd.name
        msg0.authorId (cooldownMs pingCmd) (0 + 500) = some (cooldownMs pingCmd - 500)
    ∧ remaining (dispatchParsed bot0 [pingCmd] [] msg0 0 "ping" []).2 pingCmd.name
        msg0.authorId (cooldownMs pingCmd) (0 + cooldownMs pingCmd + 1) = none
    ∧ dispatchParsed bot0 [pingCmd] [] msg0 0 "nope" [] = ([.respond .unknown], []) := by
  have h := (c6_cooldown_lifecycle bot0 [pingCmd] [] msg0 0 "ping" []).1 pingCmd [] (by decide)
  exact ⟨h.1, h.2.1 500 (by decide), h.2.2 1 (by decide),
    (c6_cooldown_lifecycle bot0 [pingCmd] [] msg0 0 "nope" []).2 .unknown (by decide)⟩

/-- C7 (confirmed): past all earlier guards, a command with nonzero
declared arity is rejected with `command_incorrect_usage` exactly when the
actual argument count differs from it, and a command with declared arity 0
is authorized for every argument count. -/
theorem c7_arity_guard (bot : BotData) (reg : List Command) (st : Cooldowns)
    (msg : Msg) (now : Nat) (name : String) (args : List String) (c : Command)
    (h1 : hasName reg name = true)
    (h2 : resolveCommand reg name = some c)
    (h3 : blockedRejects bot c msg.authorId = false)
    (h4 : remaining st c.name msg.authorId (cooldownMs c) now = none)
    (h5 : guildOnlyRejects c msg.channelType = false)
    (h6 : dmsOnlyRejects c msg.channelType = false)
    (h7 : ownersRejects c (isOwner bot.owners msg.authorId) = false)
    (h8 : userPermRejects c msg.authorPerms = false)
    (h9 : botPermRejects c msg.botPerms = false) :
    (c.args ≠ 0 →
      (authorize bot reg st msg now name args = .inl .incorrectUsage ↔ args.length ≠ c.args))
    ∧ (c.args = 0 → authorize bot reg st msg now name args = .inr (c, args)) := by
  have hauth : authorize bot reg st msg now name args =
      if arityRejects c.args args then .inl .incorrectUsage else .inr (c, args) := by
    simp [authorize, h1, h2, h3, h4, h5, h6, h7, h8, h9]
  constructor
  · intro hz
    by_cases hlen : args.length = c.args
    · simp [hauth, arityRejects, ← hlen]
    · have : arityRejects c.args args = true := by
        simp [arityRejects, hz]
        omega
      simp [hauth, this, hlen]
  · intro hz
    simp [hauth, arityRejects, hz]

/-- Witness for C7: arity-2 command `two` rejects one argument and the
arity-0 command `ping` authorizes two arguments. -/
theorem c7_arity_guard_witness :
    authorize bot0 [twoCmd] [] msg0 0 "two" ["a"] = .inl .incorrectUsage
    ∧ authorize bot0 [pingCmd] [] msg0 0 "ping" ["a", "b"] = .inr (pingCmd, ["a", "b"]) :=
  ⟨((c7_arity_guard bot0 [twoCmd] [] msg0 0 "two" ["a"] twoCmd (by decide) (by decide)
      (by decide) rfl (by decide) (by decide) (by decide) (by decide) (by decide)).1
      (by decide)).mpr (by decide),
   (c7_arity_guard bot0 [pingCmd] [] msg0 0 "ping" ["a", "b"] pingCmd (by decide) (by decide)
      (by decide) rfl (by decide) (by decide) (by decide) (by decide) (by decide)).2 rfl⟩

/-- C8 (confirmed): with every earlier guard passing, an owners-only
command invoked by a non-owner is rejected with `command_owners_only` even
when the user-permission guard would also fail — the fixed guard order
short-circuits at the first failure with a single rejection kind, so the
outcome is not `command_no_permission`. -/
theorem c8_owners_before_permissions (bot : BotData) (reg : List Command) (st : Cooldowns)
    (msg : Msg) (now : Nat) (name : String) (args : List String) (c : Command)
    (h1 : hasName reg name = true)
    (h2 : resolveCommand reg name = some c)
    (h3 : blockedRejects bot c msg.authorId = false)
    (h4 : remaining st c.name msg.authorId (cooldownMs c) now = none)
    (h5 : guildOnlyRejects c msg.channelType = false)
    (h6 : dmsOnlyRejects c msg.channelType = false)
    (h7 : c.ownersOnly = true)
    (h8 : isOwner bot.owners msg.authorId = false)
    (_h9 : userPermRejects c msg.authorPerms = true) :
    authorize bot reg st msg now name args = .inl .ownersOnly
    ∧ authorize bot reg st msg now name args ≠ .inl .noPermission := by
  have h : authorize bot reg st msg now name args = .inl .ownersOnly := by
    simp [authorize, h1, h2, h3, h4, h5, h6, ownersRejects, h7, h8]
  exact ⟨h, by rw [h]; simp⟩

/-- Witness for C8: non-owner `u1` without MANAGE_GUILD invoking the
owners-only command `admin`. -/
theorem c8_owners_before_permissions_witness :
    authorize bot0 [adminCmd] [] { msg0 with authorPerms := some [] } 0 "admin" [] =
      .inl .ownersOnly
    ∧ authorize bot0 [adminCmd] [] { msg0 with authorPerms := some [] } 0 "admin" [] ≠
      .inl .noPermission :=
  c8_owners_before_permissions bot0 [adminCmd] [] { msg0 with authorPerms := some [] } 0
    "admin" [] adminCmd (by decide) (by decide) (by decide) rfl (by decide) (by decide)
    (by decide) (by decide) (by decide)

/-- C9 (code bug): the command-kind error reply is never delivered.  At
the failing input — `tables0` registers a throwing slash handler under
`"a"` — the router runs the handler, logs the exception, and then the
catch block's strict-mode assignment to the undeclared `msg` (line 625)
raises a `ReferenceError` before `interaction.reply` (line 633), so the
effect trace contains no reply at all, against the claimed single
ephemeral reply.  The remaining parts of the claim hold: a missing
handler is silently ignored for all three kinds, and throwing button-
and select-kind handlers are logged with no reply. -/
theorem c9_command_error_reply_never_sent :
    interact tables0 (.command "a") = [.runHandler "a", .logError, .refError]
    ∧ (interact tables0 (.command "a")).filter isReply = []
    ∧ interact tables0 (.command "z") = []
    ∧ interact tables0 (.button "z") = []
    ∧ interact tables0 (.selectMenu "z") = []
    ∧ (interact tables0 (.button "b")).filter isReply = []
    ∧ (interact tables0 (.selectMenu "c")).filter isReply = [] := by
  decide

/-- C10 (confirmed): a message from a bot account, or one carrying a
(truthy) webhook id, is dropped before parsing: no response, no handler
invocation, and the cooldown state is returned unchanged. -/
theorem c10_bot_webhook_dropped (bot : BotData) (reg : List Command) (st : Cooldowns)
    (msg : Msg) (now : Nat)
    (h : msg.authorBot = true ∨ webhookTruthy msg.webhookID = true) :
    dispatch bot reg st msg now = ([], st) := by
  rcases h with h | h
  · simp [dispatch, h]
  · cases hb : msg.authorBot <;> simp [dispatch, h, hb]

/-- Witness for C10: a bot-authored `!ping` is ignored. -/
theorem c10_bot_webhook_dropped_witness :
    dispatch bot0 [pingCmd] [] { msg0 with authorBot := true } 0 = ([], []) :=
  c10_bot_webhook_dropped bot0 [pingCmd] [] { msg0 with authorBot := true } 0 (Or.inl rfl)

end DBF
